import Mathlib

/-!
# joyemu: the start-up path of `main` (src/main.c)

A shallow embedding of `main`: option parsing, the device scan, the
initialisation of the I/O expander, the creation of the two threads and the
final idle loop.

Conventions of the embedding.

* The functions `main` calls in other translation units (`debug_set_verbosity`,
  `input_scan_devices`, `input_mouse_connected`, `input_joysticks_connected`,
  `mcp_initialize`, `mouse_set_port`, `debug_log`) and the C library calls with
  an effect (`fprintf(stderr, ..)`, `pthread_create`, `sleep`, `exit`) are
  recorded, in call order, as `Event`s of a trace. What they return is read
  from a `World`. Every such call is assumed to return to `main`.
* `getopt` and `sscanf` are C library functions; they are modelled as glibc
  behaves on a little-endian platform with a 64-bit `long`, for the one option
  string and the two conversion formats `main` uses.
* `sscanf("%d")` through the address of a `uint8_t` variable writes the four
  bytes of an `int`: the low byte lands in the variable, the three others on
  what follows it in memory. What they hit depends on how the compiler lays out
  the global variables, so it is a parameter (`Layout`); the two layouts gcc
  produces for the declarations of `main.c` are given as instances.
* The constants of `defaults.h` and `logging.h`, which are not part of the
  sources at hand, are parameters (`Defaults`).
-/

namespace Joyemu

/-! ## Constants -/

/-- The macros `main` takes from `defaults.h` and `logging.h`. -/
structure Defaults where
  MCP_I2C_BUS_NUMBER : Int
  MCP_I2C_BASE_ADDR : Int
  LOGLEVEL_EXTRADEBUG : Int
  LOGLEVEL_INFO : Int
  LOGLEVEL_ERROR : Int
  deriving DecidableEq, Repr

/-- Modelled from the spec: `defaults.h` and `logging.h` are missing. The bus
number and base address are the defaults the usage text of `main` documents
("default: 1", "default: 0x20"); the three log levels are sample values, ordered
the way `-q` (towards `LOGLEVEL_ERROR`) and `-v` (towards `LOGLEVEL_EXTRADEBUG`)
move the verbosity. Used only to evaluate `main` on concrete command lines. -/
def usageDefaults : Defaults :=
  { MCP_I2C_BUS_NUMBER := 1
    MCP_I2C_BASE_ADDR := 0x20
    LOGLEVEL_EXTRADEBUG := 0
    LOGLEVEL_INFO := 2
    LOGLEVEL_ERROR := 4 }

/-- The constant `EXIT_FAILURE` of `<stdlib.h>`. -/
def EXIT_FAILURE : Int := 1

/-- The constant `GLOB_NOMATCH` of `<glob.h>` (glibc). -/
def GLOB_NOMATCH : Int := 3

/-- The status the parent process sees for `exit(code)`: the low eight bits. -/
def exit_status (code : Int) : Int := code % 256

/-! ## `sscanf` -/

/-- The function `isspace` in the C locale. -/
def isspace (c : Char) : Bool :=
  c = ' ' || c = Char.ofNat 9 || c = Char.ofNat 10 || c = Char.ofNat 11 ||
  c = Char.ofNat 12 || c = Char.ofNat 13

/-- Value of a decimal digit. -/
def dec_digit (c : Char) : Option Nat :=
  if '0' ≤ c ∧ c ≤ '9' then some (c.toNat - '0'.toNat) else none

/-- Value of a hexadecimal digit. -/
def hex_digit (c : Char) : Option Nat :=
  if '0' ≤ c ∧ c ≤ '9' then some (c.toNat - '0'.toNat)
  else if 'a' ≤ c ∧ c ≤ 'f' then some (c.toNat - 'a'.toNat + 10)
  else if 'A' ≤ c ∧ c ≤ 'F' then some (c.toNat - 'A'.toNat + 10)
  else none

/-- The longest run of decimal digits at the head of the input, as a number
continuing `acc`. -/
def read_dec (acc : Nat) : List Char → Nat
  | [] => acc
  | c :: cs =>
    match dec_digit c with
    | some d => read_dec (10 * acc + d) cs
    | none => acc

/-- The number `%d` reads after the optional sign: at least one digit, else a
matching failure. -/
def scan_unsigned_dec : List Char → Option Nat
  | [] => none
  | c :: cs =>
    match dec_digit c with
    | some d => some (read_dec d cs)
    | none => none

/-- The value `strtol` returns for a numeral of value `v`: `v` itself, or
`LONG_MAX` or `LONG_MIN` when `v` is out of the range of a 64-bit `long`. -/
def saturate_long (v : Int) : Int := max (-(2 ^ 63)) (min (2 ^ 63 - 1) v)

/-- The call `sscanf(s, "%d", ..)`: the `long` value converted, before it is
stored as an `int`, or `none` when nothing is assigned (input failure or
matching failure). White space is skipped, then an optional sign and a non-empty
run of decimal digits are read. -/
def sscanf_d (s : List Char) : Option Int :=
  match s.dropWhile isspace with
  | '-' :: cs => (scan_unsigned_dec cs).map fun n => saturate_long (-(n : Int))
  | '+' :: cs => (scan_unsigned_dec cs).map fun n => saturate_long (n : Int)
  | cs => (scan_unsigned_dec cs).map fun n => saturate_long (n : Int)

/-- The `%02x` directive: white space is skipped, then an input item of at most
two characters is read, in the form `strtoul` accepts in base 16 (optional sign,
optional `0x`, hexadecimal digits). An item that is only a sign is a matching
failure; an item that is only the `0x` introducer converts to 0 (glibc 2.36;
ISO C asks for a matching failure). The result is the value as the `int` the
pointer argument designates. -/
def scan_02x (s : List Char) : Option Int :=
  match s.dropWhile isspace with
  | [] => none
  | '-' :: c :: _ => (hex_digit c).map fun d => -(d : Int)
  | '+' :: c :: _ => (hex_digit c).map fun d => (d : Int)
  | '0' :: 'x' :: _ => some 0
  | '0' :: 'X' :: _ => some 0
  | c :: rest =>
    match hex_digit c with
    | none => none
    | some d =>
      match rest with
      | [] => some d
      | c2 :: _ =>
        match hex_digit c2 with
        | some d2 => some ((16 * d + d2 : Nat) : Int)
        | none => some d

/-- The call `sscanf(s, "0x%02x", ..)`: the ordinary characters `0` and `x` must match
the head of the input as they stand, then `%02x` converts. -/
def sscanf_0x02x (s : List Char) : Option Int :=
  match s with
  | '0' :: 'x' :: cs => scan_02x cs
  | _ => none

/-- The value an `int` variable holds after the `long` value `v` is stored in
it: the low 32 bits, two's complement. -/
def store_int (v : Int) : Int := (v + 2 ^ 31) % 2 ^ 32 - 2 ^ 31

/-- Byte `k` (0 the lowest) of the `int` that holds `v`, little endian. -/
def byte_of (v : Int) (k : Nat) : Nat := (v % 2 ^ 32 / 256 ^ k % 256).toNat

/-- The value a `uint8_t` variable holds after `sscanf` stored the `int` `v`
through its address: the low byte. -/
def store_uint8 (v : Int) : Nat := byte_of v 0

/-- The `int` `x` with its low byte replaced by `b`. -/
def set_low_byte (x : Int) (b : Nat) : Int := x - x % 256 + b

/-- The `int` variable `x` after `sscanf(s, "%d", &x)`, `old` being its value
before: unchanged when nothing is assigned. -/
def assign_d (s : List Char) (old : Int) : Int :=
  match sscanf_d s with
  | some v => store_int v
  | none => old

/-- The `int` variable `x` after `sscanf(s, "0x%02x", &x)`. -/
def assign_0x02x (s : List Char) (old : Int) : Int :=
  match sscanf_0x02x s with
  | some v => store_int v
  | none => old

/-! ## `getopt` -/

/-- One return of `getopt`: the option character (`?` for an unknown option or a
missing argument) and `optarg`. -/
structure GetoptReturn where
  opt : Char
  optarg : List Char
  deriving DecidableEq, Repr

/-- The option characters of `"i:a:d:m:j:vqh"` followed by a colon. -/
def takes_argument (c : Char) : Bool :=
  c = 'i' || c = 'a' || c = 'd' || c = 'm' || c = 'j'

/-- The option characters of `"i:a:d:m:j:vqh"` not followed by a colon. -/
def is_flag (c : Char) : Bool :=
  c = 'v' || c = 'q' || c = 'h'

/-- The returns of `getopt` for the option characters of one `argv` element (the
text after its dash), and the option that still waits for the next `argv`
element as its argument, if the element ends in one. -/
def getopt_element : List Char → List GetoptReturn × Option Char
  | [] => ([], none)
  | c :: cs =>
    if takes_argument c then
      match cs with
      | [] => ([], some c)
      | _ :: _ => ([⟨c, cs⟩], none)
    else
      let r := getopt_element cs
      (⟨if is_flag c then c else '?', []⟩ :: r.1, r.2)

/-- What `getopt` makes of an `argv` element it meets while it looks for the
next option. -/
inductive Element where
  /-- The element `--`: the end of the options. -/
  | terminator
  /-- An element without a leading dash, or a lone dash. -/
  | operand
  /-- A dash followed by the given, non-empty, option characters. -/
  | options (cs : List Char)
  deriving DecidableEq, Repr

/-- The kind of an `argv` element. -/
def Element.of : List Char → Element
  | ['-', '-'] => .terminator
  | '-' :: c :: cs => .options (c :: cs)
  | _ => .operand

/-- The successive returns of `getopt(argc, argv, "i:a:d:m:j:vqh")` over the
elements of `argv` after `argv[0]`, up to the call that returns -1. `--` ends the
options; an element that is not an option ends them when `posix` is set
(`POSIXLY_CORRECT`) and is skipped otherwise (glibc moves it behind the
options). An option that takes an argument and ends its element takes the
whole next element, whatever it is; without a next element `getopt` returns
`?`. The message `getopt` itself prints with a `?` is not recorded. -/
def getopt_returns (posix : Bool) : List (List Char) → List GetoptReturn
  | [] => []
  | [a] =>
    match Element.of a with
    | .terminator => []
    | .operand => []
    | .options cs =>
      match getopt_element cs with
      | (rs, none) => rs
      | (rs, some _) => rs ++ [⟨'?', []⟩]
  | a :: b :: rest =>
    match Element.of a with
    | .terminator => []
    | .operand => if posix then [] else getopt_returns posix (b :: rest)
    | .options cs =>
      match getopt_element cs with
      | (rs, none) => rs ++ getopt_returns posix (b :: rest)
      | (rs, some o) => rs ++ ⟨o, b⟩ :: getopt_returns posix rest

/-- The returns of the successive calls `getopt(argc, argv, options)` of `main`:
`argv[0]` is the program name and is not scanned. -/
def getopt (posix : Bool) (argv : List String) : List GetoptReturn :=
  getopt_returns posix (argv.tail.map String.toList)

/-! ## Traces -/

/-- The texts `main` writes to `stderr` or hands to `debug_log`. -/
inductive Message where
  /-- The text "Usage: %s [-vqh] [-i i2c_bus] [-a i2c_addr] ..." (with `argv[0]`). -/
  | usage_synopsis
  /-- The list of options that follows the synopsis. -/
  | usage_options
  /-- The text "Invalid I2C bus number - please enter a positive integer number, eg. 1". -/
  | invalid_i2c_bus
  /-- The text "Invalid I2C base address - please enter a hexadeximal number between 0x00
  and 0xff". -/
  | invalid_i2c_base
  /-- The text "Invalid mouse port - please enter either 1 or 2". -/
  | invalid_mouse_port
  /-- The text "Invalid joystick port - please enter either 1 or 2". -/
  | invalid_joystick_port
  /-- The text "Could not find any input devices - make sure your devices are powered on
  and paired - exiting". -/
  | could_not_find_devices
  /-- The text "Error while scanning for input devices - make sure you have permission to
  access /dev/input - exiting". -/
  | error_while_scanning
  /-- The text "No suitable input devices found for emulating either mouse or joysticks -
  exiting". -/
  | no_suitable_devices
  /-- The text "Failed to create port I/O thread - exiting". -/
  | failed_port_io_thread
  /-- The text "Failed to create event poll thread - exiting". -/
  | failed_event_poll_thread
  deriving DecidableEq, Repr

/-- The start routines `main` hands to `pthread_create`. -/
inductive Thread where
  | port_io_thread
  | input_poll_thread
  deriving DecidableEq, Repr

/-- The calls of `main` with an effect outside `main`, with their arguments. -/
inductive Event where
  | fprintf_stderr (m : Message)
  | debug_set_verbosity (level : Int)
  | input_scan_devices (mouse_port joystick_port : Nat)
  | debug_log (level : Int) (m : Message)
  | input_mouse_connected
  | input_joysticks_connected
  | mcp_initialize (bus base : Int)
  | mouse_set_port (port : Nat)
  | pthread_create (start : Thread)
  | sleep (seconds : Nat)
  | exit (code : Int)
  deriving DecidableEq, Repr

/-- What the collaborators return to `main`. -/
structure World where
  input_scan_devices : Nat → Nat → Int
  input_mouse_connected : Bool
  input_joysticks_connected : Bool
  pthread_create : Thread → Int

/-- Where an execution of `main` stands. -/
inductive Status where
  /-- Still inside `main`. -/
  | running
  /-- The call `exit(code)` was made. -/
  | exited (code : Int)
  /-- The function `main` returned `value`. -/
  | returned (value : Int)
  deriving DecidableEq, Repr

/-- An execution of `main`, as far as it is observed: the calls made so far and
the status reached. -/
structure Run where
  trace : List Event
  status : Status
  deriving DecidableEq, Repr

/-- The calls `pre`, then `exit(code)`. -/
def fatal (pre : List Event) (code : Int) : Run :=
  ⟨pre ++ [Event.exit code], .exited code⟩

/-- The calls `pre`, then the execution `r`. -/
def Run.after (pre : List Event) (r : Run) : Run :=
  ⟨pre ++ r.trace, r.status⟩

/-! ## Configuration and option parsing -/

/-- The global configuration variables of `main.c` that `main` reads or writes. -/
structure Config where
  config_i2c_bus : Int
  config_i2c_base : Int
  config_log_verbosity : Int
  config_joystick_port : Nat
  config_mouse_port : Nat
  deriving DecidableEq, Repr

/-- The initialisers of the global variables. -/
def Config.initial (D : Defaults) : Config :=
  { config_i2c_bus := D.MCP_I2C_BUS_NUMBER
    config_i2c_base := D.MCP_I2C_BASE_ADDR
    config_log_verbosity := D.LOGLEVEL_INFO
    config_joystick_port := 2
    config_mouse_port := 1 }

/-- The memory layout of the global variables, as far as `main` depends on it:
what the three bytes that `sscanf("%d")` writes past `config_mouse_port`, and
past `config_joystick_port`, do to the configuration. The argument is the value
converted. -/
structure Layout where
  past_mouse_port : Int → Config → Config
  past_joystick_port : Int → Config → Config

/-- The variables in the order of their declarations (gcc without optimisation):
`config_joystick_port`, `config_mouse_port`, two bytes of padding,
`config_mouse_speed`. The bytes past `config_joystick_port` hit
`config_mouse_port` and the padding; those past `config_mouse_port` hit the
padding and `config_mouse_speed`, which `main` does not read. -/
def Layout.declaration_order : Layout :=
  { past_mouse_port := fun _ cfg => cfg
    past_joystick_port := fun v cfg => { cfg with config_mouse_port := byte_of v 1 } }

/-- The variables in the reverse order (gcc -O1, -O2, -Os): `config_mouse_port`,
`config_joystick_port`, two bytes of padding, `config_log_verbosity`. The bytes
past `config_mouse_port` hit `config_joystick_port` and the padding; those past
`config_joystick_port` hit the padding and the low byte of
`config_log_verbosity`. -/
def Layout.reverse_order : Layout :=
  { past_mouse_port := fun v cfg => { cfg with config_joystick_port := byte_of v 1 }
    past_joystick_port := fun v cfg =>
      { cfg with config_log_verbosity := set_low_byte cfg.config_log_verbosity (byte_of v 3) } }

/-- The configuration after `sscanf(s, "%d", &config_mouse_port)`: unchanged when
nothing is assigned; else the low byte of the value is in `config_mouse_port`
and the three other bytes are where the layout puts them. -/
def sscanf_d_mouse_port (L : Layout) (s : List Char) (cfg : Config) : Config :=
  match sscanf_d s with
  | some v => { L.past_mouse_port v cfg with config_mouse_port := store_uint8 v }
  | none => cfg

/-- The configuration after `sscanf(s, "%d", &config_joystick_port)`. -/
def sscanf_d_joystick_port (L : Layout) (s : List Char) (cfg : Config) : Config :=
  match sscanf_d s with
  | some v => { L.past_joystick_port v cfg with config_joystick_port := store_uint8 v }
  | none => cfg

/-- How one pass through the body of the option loop ends. -/
inductive Step where
  /-- The loop goes on with the configuration. -/
  | next (cfg : Config)
  /-- The process exits. -/
  | stop (r : Run)
  deriving DecidableEq, Repr

/-- The `switch (opt)` of `main` for one return of `getopt` other than -1. A
variable `sscanf` does not assign keeps its value; the error is detected on the
value of the variable after the call. -/
def switch_opt (D : Defaults) (L : Layout) (g : GetoptReturn) (cfg : Config) : Step :=
  if g.opt = 'q' then
    let v := cfg.config_log_verbosity + 1
    .next { cfg with config_log_verbosity :=
      if v > D.LOGLEVEL_ERROR then D.LOGLEVEL_ERROR else v }
  else if g.opt = 'v' then
    let v := cfg.config_log_verbosity - 1
    .next { cfg with config_log_verbosity :=
      if v < D.LOGLEVEL_EXTRADEBUG then D.LOGLEVEL_EXTRADEBUG else v }
  else if g.opt = 'i' then
    let bus := assign_d g.optarg cfg.config_i2c_bus
    if bus < 0 then
      .stop (fatal [Event.fprintf_stderr .invalid_i2c_bus] EXIT_FAILURE)
    else .next { cfg with config_i2c_bus := bus }
  else if g.opt = 'a' then
    let base := assign_0x02x g.optarg cfg.config_i2c_base
    if base < 0 ∨ base > 0xff then
      .stop (fatal [Event.fprintf_stderr .invalid_i2c_base] EXIT_FAILURE)
    else .next { cfg with config_i2c_base := base }
  else if g.opt = 'd' then
    .next cfg
  else if g.opt = 'm' then
    let cfg2 := sscanf_d_mouse_port L g.optarg cfg
    if cfg2.config_mouse_port ≠ 1 ∧ cfg2.config_mouse_port ≠ 2 then
      .stop (fatal [Event.fprintf_stderr .invalid_mouse_port] EXIT_FAILURE)
    else .next cfg2
  else if g.opt = 'j' then
    let cfg2 := sscanf_d_joystick_port L g.optarg cfg
    if cfg2.config_joystick_port ≠ 1 ∧ cfg2.config_joystick_port ≠ 2 then
      .stop (fatal [Event.fprintf_stderr .invalid_joystick_port] EXIT_FAILURE)
    else .next cfg2
  else
    .stop (fatal [Event.fprintf_stderr .usage_synopsis,
      Event.fprintf_stderr .usage_options] EXIT_FAILURE)

/-- The `while (1)` loop around `getopt`: one pass per return of `getopt`; the
loop is left when `getopt` returns -1, that is when the returns are used up. -/
def option_loop (D : Defaults) (L : Layout) : List GetoptReturn → Config → Step
  | [], cfg => .next cfg
  | g :: gs, cfg =>
    match switch_opt D L g cfg with
    | .next cfg2 => option_loop D L gs cfg2
    | .stop r => .stop r

/-! ## Start-up -/

/-- The loop `do { sleep(1); } while (c); return 0;` observed for at most `n`
passes: after `n` passes with the loop still going the execution is `running`. -/
def idle_loop (c : Int) : Nat → Run
  | 0 => ⟨[], .running⟩
  | n + 1 =>
    Run.after [Event.sleep 1] (if c ≠ 0 then idle_loop c n else ⟨[], .returned 0⟩)

/-- The calls of the condition `!input_mouse_connected() &&
!input_joysticks_connected()`: the second operand is evaluated only when the
first one is true. -/
def device_queries (W : World) : List Event :=
  Event.input_mouse_connected ::
    (if W.input_mouse_connected then [] else [Event.input_joysticks_connected])

/-- The body of `main` after the option loop, for the configuration the loop
left; the final idle loop is observed for `fuel` passes. -/
def startup (D : Defaults) (W : World) (cfg : Config) (fuel : Nat) : Run :=
  Run.after [Event.debug_set_verbosity cfg.config_log_verbosity,
      Event.input_scan_devices cfg.config_mouse_port cfg.config_joystick_port] <|
    let rc := W.input_scan_devices cfg.config_mouse_port cfg.config_joystick_port
    if rc = GLOB_NOMATCH then
      fatal [Event.debug_log D.LOGLEVEL_ERROR .could_not_find_devices] (-1)
    else if rc ≠ 0 then
      fatal [Event.debug_log D.LOGLEVEL_ERROR .error_while_scanning] (-1)
    else Run.after (device_queries W) <|
      if (!W.input_mouse_connected && !W.input_joysticks_connected) = true then
        fatal [Event.debug_log D.LOGLEVEL_ERROR .no_suitable_devices] (-1)
      else Run.after [Event.mcp_initialize D.MCP_I2C_BUS_NUMBER D.MCP_I2C_BASE_ADDR,
          Event.mouse_set_port cfg.config_mouse_port,
          Event.pthread_create .port_io_thread] <|
        if W.pthread_create .port_io_thread ≠ 0 then
          fatal [Event.debug_log D.LOGLEVEL_ERROR .failed_port_io_thread] (-1)
        else Run.after [Event.sleep 1, Event.pthread_create .input_poll_thread] <|
          if W.pthread_create .input_poll_thread ≠ 0 then
            fatal [Event.debug_log D.LOGLEVEL_ERROR .failed_event_poll_thread] (-1)
          else idle_loop 1 fuel

/-- The function `main`: the option loop over the returns of `getopt`, then the
start-up. `posix` tells whether `POSIXLY_CORRECT` is set in the environment. -/
def main (D : Defaults) (L : Layout) (posix : Bool) (W : World) (argv : List String)
    (fuel : Nat) : Run :=
  match option_loop D L (getopt posix argv) (Config.initial D) with
  | .stop r => r
  | .next cfg => startup D W cfg fuel

/-! ## Predicates on traces -/

/-- The calls that bring up the emulated ports: `mcp_initialize`,
`mouse_set_port` and `pthread_create`. -/
def Event.is_port_setup : Event → Bool
  | Event.mcp_initialize _ _ => true
  | Event.mouse_set_port _ => true
  | Event.pthread_create _ => true
  | _ => false

/-- The two queries `input_mouse_connected()` and `input_joysticks_connected()`. -/
def Event.is_device_query : Event → Bool
  | Event.input_mouse_connected => true
  | Event.input_joysticks_connected => true
  | _ => false

/-- The one-time start-up calls: the device scan and the port set-up calls. -/
def Event.is_startup_call : Event → Bool
  | Event.input_scan_devices _ _ => true
  | e => e.is_port_setup

/-- A diagnostic: a text on `stderr`, or a log line of level `LOGLEVEL_ERROR`. -/
def Event.is_diagnostic (D : Defaults) : Event → Bool
  | Event.fprintf_stderr _ => true
  | Event.debug_log level _ => decide (level = D.LOGLEVEL_ERROR)
  | _ => false

/-- The I2C bus number is not negative and the base address is a byte. -/
def Config.i2c_valid (cfg : Config) : Prop :=
  0 ≤ cfg.config_i2c_bus ∧ 0 ≤ cfg.config_i2c_base ∧ cfg.config_i2c_base ≤ 0xff

/-- The bytes written past the two port variables miss `config_i2c_bus` and
`config_i2c_base`. -/
def Layout.spares_i2c (L : Layout) : Prop :=
  ∀ v cfg,
    (L.past_mouse_port v cfg).config_i2c_bus = cfg.config_i2c_bus ∧
    (L.past_mouse_port v cfg).config_i2c_base = cfg.config_i2c_base ∧
    (L.past_joystick_port v cfg).config_i2c_bus = cfg.config_i2c_bus ∧
    (L.past_joystick_port v cfg).config_i2c_base = cfg.config_i2c_base

/-- A sample world: the scan succeeds, a mouse is connected and no joystick,
both threads are created. -/
def sampleWorld : World :=
  { input_scan_devices := fun _ _ => 0
    input_mouse_connected := true
    input_joysticks_connected := false
    pthread_create := fun _ => 0 }

/-- A sample world without any usable device: the scan succeeds, neither a
mouse nor a joystick is connected. -/
def emptyWorld : World :=
  { sampleWorld with input_mouse_connected := false }

/-- A sample world in which the scan finds no device file. -/
def noMatchWorld : World :=
  { sampleWorld with input_scan_devices := fun _ _ => GLOB_NOMATCH }

/-- A sample world in which the scan fails with another code (`GLOB_ABORTED`). -/
def scanErrorWorld : World :=
  { sampleWorld with input_scan_devices := fun _ _ => 2 }

/-- A sample world in which the port I/O thread cannot be created (`EAGAIN`). -/
def noThreadWorld : World :=
  { sampleWorld with pthread_create := fun _ => 11 }

/-- A sample world in which only the event poll thread cannot be created. -/
def noPollWorld : World :=
  { sampleWorld with
    pthread_create := fun t => if t = Thread.input_poll_thread then 11 else 0 }

/-- The return of `getopt` with the argument of a `-d` option erased. -/
def erase_d_argument (g : GetoptReturn) : GetoptReturn :=
  if g.opt = 'd' then ⟨'d', []⟩ else g

/-! ## Lemmas on the start-up path -/

theorem main_of_next {D : Defaults} {L : Layout} {posix : Bool} {argv : List String}
    {cfg : Config} (W : World) (fuel : Nat)
    (h : option_loop D L (getopt posix argv) (Config.initial D) = .next cfg) :
    main D L posix W argv fuel = startup D W cfg fuel := by
  simp [main, h]

theorem main_of_stop {D : Defaults} {L : Layout} {posix : Bool} {argv : List String}
    {r : Run} (W : World) (fuel : Nat)
    (h : option_loop D L (getopt posix argv) (Config.initial D) = .stop r) :
    main D L posix W argv fuel = r := by
  simp [main, h]

theorem idle_loop_one (n : Nat) :
    idle_loop 1 n = ⟨List.replicate n (Event.sleep 1), .running⟩ := by
  induction n with
  | zero => rfl
  | succ k ih => simp [idle_loop, ih, Run.after, List.replicate_succ]

theorem exit_status_minus_one : exit_status (-1) = 255 := by decide

theorem exit_status_failure : exit_status EXIT_FAILURE = 1 := by decide

/-! ## Lemmas on the option loop -/

theorem switch_opt_stop_shape {D : Defaults} {L : Layout} {g : GetoptReturn} {cfg : Config}
    {r : Run} (h : switch_opt D L g cfg = .stop r) :
    r = fatal [Event.fprintf_stderr .usage_synopsis, Event.fprintf_stderr .usage_options]
        EXIT_FAILURE ∨
    ∃ m, r = fatal [Event.fprintf_stderr m] EXIT_FAILURE := by
  simp only [switch_opt] at h
  split_ifs at h <;> first
    | exact Or.inl (Step.stop.inj h).symm
    | exact Or.inr ⟨_, (Step.stop.inj h).symm⟩

theorem option_loop_stop_shape {D : Defaults} {L : Layout} {r : Run} :
    ∀ (gs : List GetoptReturn) (cfg : Config), option_loop D L gs cfg = .stop r →
      r = fatal [Event.fprintf_stderr .usage_synopsis, Event.fprintf_stderr .usage_options]
          EXIT_FAILURE ∨
      ∃ m, r = fatal [Event.fprintf_stderr m] EXIT_FAILURE := by
  intro gs
  induction gs with
  | nil => intro cfg h; simp [option_loop] at h
  | cons g gs ih =>
    intro cfg h
    simp only [option_loop] at h
    cases hs : switch_opt D L g cfg with
    | next cfg2 => rw [hs] at h; exact ih cfg2 h
    | stop r2 =>
      rw [hs] at h
      simp only [Step.stop.injEq] at h
      subst h
      exact switch_opt_stop_shape hs

theorem option_loop_append (D : Defaults) (L : Layout) :
    ∀ (pre rest : List GetoptReturn) (cfg : Config),
      option_loop D L (pre ++ rest) cfg =
        match option_loop D L pre cfg with
        | .next c => option_loop D L rest c
        | .stop r => .stop r := by
  intro pre
  induction pre with
  | nil => intro rest cfg; rfl
  | cons g gs ih =>
    intro rest cfg
    simp only [List.cons_append, option_loop]
    cases switch_opt D L g cfg with
    | next cfg2 => exact ih rest cfg2
    | stop r => rfl

/-- An option at which the body of the loop stops is where `main` ends. -/
theorem main_of_stop_at {D : Defaults} {L : Layout} {posix : Bool} {argv : List String}
    {pre post : List GetoptReturn} {g : GetoptReturn} {cfg : Config} {r : Run}
    (W : World) (fuel : Nat)
    (hargv : getopt posix argv = pre ++ g :: post)
    (hpre : option_loop D L pre (Config.initial D) = .next cfg)
    (hs : switch_opt D L g cfg = .stop r) :
    main D L posix W argv fuel = r := by
  apply main_of_stop W fuel
  rw [hargv, option_loop_append, hpre]
  simp only [option_loop, hs]

/-- The outcome of the start-up path: `main` is still running, or the last two
calls are an error-level log line and `exit(-1)`, the only `exit`. -/
theorem startup_outcome (D : Defaults) (W : World) (cfg : Config) (fuel : Nat) :
    (startup D W cfg fuel).status = .running ∨
    ∃ pre m, startup D W cfg fuel =
      ⟨pre ++ [Event.debug_log D.LOGLEVEL_ERROR m, Event.exit (-1)], .exited (-1)⟩ ∧
      ∀ c, Event.exit c ∉ pre := by
  have hG : (0 : Int) ≠ GLOB_NOMATCH := by decide
  by_cases hg : W.input_scan_devices cfg.config_mouse_port cfg.config_joystick_port
      = GLOB_NOMATCH
  · right
    exact ⟨[Event.debug_set_verbosity cfg.config_log_verbosity,
      Event.input_scan_devices cfg.config_mouse_port cfg.config_joystick_port],
      .could_not_find_devices, by simp [startup, hg, Run.after, fatal], by simp⟩
  by_cases h0 : W.input_scan_devices cfg.config_mouse_port cfg.config_joystick_port = 0
  swap
  · right
    exact ⟨[Event.debug_set_verbosity cfg.config_log_verbosity,
      Event.input_scan_devices cfg.config_mouse_port cfg.config_joystick_port],
      .error_while_scanning, by simp [startup, hg, h0, Run.after, fatal], by simp⟩
  by_cases hc : (!W.input_mouse_connected && !W.input_joysticks_connected) = true
  · right
    refine ⟨[Event.debug_set_verbosity cfg.config_log_verbosity,
      Event.input_scan_devices cfg.config_mouse_port cfg.config_joystick_port] ++
      device_queries W, .no_suitable_devices, ?_, ?_⟩
    · simp [startup, h0, hG, hc, Run.after, fatal]
    · cases W.input_mouse_connected <;> simp [device_queries]
  by_cases hio : W.pthread_create .port_io_thread = 0
  swap
  · right
    refine ⟨[Event.debug_set_verbosity cfg.config_log_verbosity,
      Event.input_scan_devices cfg.config_mouse_port cfg.config_joystick_port] ++
      device_queries W ++
      [Event.mcp_initialize D.MCP_I2C_BUS_NUMBER D.MCP_I2C_BASE_ADDR,
        Event.mouse_set_port cfg.config_mouse_port,
        Event.pthread_create .port_io_thread], .failed_port_io_thread, ?_, ?_⟩
    · simp [startup, h0, hG, hc, hio, Run.after, fatal]
    · cases W.input_mouse_connected <;> simp [device_queries]
  by_cases hpoll : W.pthread_create .input_poll_thread = 0
  swap
  · right
    refine ⟨[Event.debug_set_verbosity cfg.config_log_verbosity,
      Event.input_scan_devices cfg.config_mouse_port cfg.config_joystick_port] ++
      device_queries W ++
      [Event.mcp_initialize D.MCP_I2C_BUS_NUMBER D.MCP_I2C_BASE_ADDR,
        Event.mouse_set_port cfg.config_mouse_port,
        Event.pthread_create .port_io_thread,
        Event.sleep 1, Event.pthread_create .input_poll_thread],
        .failed_event_poll_thread, ?_, ?_⟩
    · simp [startup, h0, hG, hc, hio, hpoll, Run.after, fatal]
    · cases W.input_mouse_connected <;> simp [device_queries]
  · left
    simp [startup, h0, hG, hc, hio, hpoll, Run.after, idle_loop_one]

theorem startup_poll_thread_mem {D : Defaults} {W : World} {cfg : Config} {fuel : Nat}
    (h : Event.pthread_create .input_poll_thread ∈ (startup D W cfg fuel).trace) :
    W.pthread_create .port_io_thread = 0 := by
  have hG : (0 : Int) ≠ GLOB_NOMATCH := by decide
  by_contra hio
  revert h
  by_cases hg : W.input_scan_devices cfg.config_mouse_port cfg.config_joystick_port
      = GLOB_NOMATCH
  · simp [startup, hg, Run.after, fatal]
  · by_cases h0 : W.input_scan_devices cfg.config_mouse_port cfg.config_joystick_port = 0
    · cases hm : W.input_mouse_connected <;>
      cases hj : W.input_joysticks_connected <;>
      simp [startup, h0, hG, hm, hj, hio, Run.after, fatal, device_queries]
    · simp [startup, hg, h0, Run.after, fatal]

theorem startup_running_iff (D : Defaults) (W : World) (cfg : Config) (fuel : Nat) :
    (startup D W cfg fuel).status = .running ↔
      W.input_scan_devices cfg.config_mouse_port cfg.config_joystick_port = 0 ∧
      (W.input_mouse_connected = true ∨ W.input_joysticks_connected = true) ∧
      W.pthread_create .port_io_thread = 0 ∧
      W.pthread_create .input_poll_thread = 0 := by
  have hG : (0 : Int) ≠ GLOB_NOMATCH := by decide
  by_cases hg : W.input_scan_devices cfg.config_mouse_port cfg.config_joystick_port
      = GLOB_NOMATCH
  · have h0 : W.input_scan_devices cfg.config_mouse_port cfg.config_joystick_port ≠ 0 := by
      rw [hg]; decide
    have hG2 : GLOB_NOMATCH ≠ (0 : Int) := by decide
    simp [startup, hg, hG2, Run.after, fatal]
  · by_cases h0 : W.input_scan_devices cfg.config_mouse_port cfg.config_joystick_port = 0
    · by_cases hio : W.pthread_create .port_io_thread = 0 <;>
      by_cases hpoll : W.pthread_create .input_poll_thread = 0 <;>
      cases hm : W.input_mouse_connected <;>
      cases hj : W.input_joysticks_connected <;>
      simp [startup, h0, hG, hm, hj, hio, hpoll, Run.after, fatal, idle_loop_one]
    · simp [startup, hg, h0, Run.after, fatal]

theorem startup_no_match {D : Defaults} {W : World} {cfg : Config} (fuel : Nat)
    (hg : W.input_scan_devices cfg.config_mouse_port cfg.config_joystick_port
      = GLOB_NOMATCH) :
    startup D W cfg fuel =
      ⟨[Event.debug_set_verbosity cfg.config_log_verbosity,
        Event.input_scan_devices cfg.config_mouse_port cfg.config_joystick_port,
        Event.debug_log D.LOGLEVEL_ERROR .could_not_find_devices,
        Event.exit (-1)], .exited (-1)⟩ := by
  simp [startup, hg, Run.after, fatal]

theorem startup_scan_error {D : Defaults} {W : World} {cfg : Config} (fuel : Nat)
    (h0 : W.input_scan_devices cfg.config_mouse_port cfg.config_joystick_port ≠ 0)
    (hg : W.input_scan_devices cfg.config_mouse_port cfg.config_joystick_port
      ≠ GLOB_NOMATCH) :
    startup D W cfg fuel =
      ⟨[Event.debug_set_verbosity cfg.config_log_verbosity,
        Event.input_scan_devices cfg.config_mouse_port cfg.config_joystick_port,
        Event.debug_log D.LOGLEVEL_ERROR .error_while_scanning,
        Event.exit (-1)], .exited (-1)⟩ := by
  simp [startup, hg, h0, Run.after, fatal]

theorem startup_no_device {D : Defaults} {W : World} {cfg : Config} (fuel : Nat)
    (h0 : W.input_scan_devices cfg.config_mouse_port cfg.config_joystick_port = 0)
    (hm : W.input_mouse_connected = false) (hj : W.input_joysticks_connected = false) :
    startup D W cfg fuel =
      ⟨[Event.debug_set_verbosity cfg.config_log_verbosity,
        Event.input_scan_devices cfg.config_mouse_port cfg.config_joystick_port,
        Event.input_mouse_connected, Event.input_joysticks_connected,
        Event.debug_log D.LOGLEVEL_ERROR .no_suitable_devices,
        Event.exit (-1)], .exited (-1)⟩ := by
  have hG : (0 : Int) ≠ GLOB_NOMATCH := by decide
  simp [startup, h0, hG, hm, hj, Run.after, fatal, device_queries]

theorem startup_port_io_failed {D : Defaults} {W : World} {cfg : Config} (fuel : Nat)
    (h0 : W.input_scan_devices cfg.config_mouse_port cfg.config_joystick_port = 0)
    (hdev : W.input_mouse_connected = true ∨ W.input_joysticks_connected = true)
    (hio : W.pthread_create .port_io_thread ≠ 0) :
    startup D W cfg fuel =
      ⟨[Event.debug_set_verbosity cfg.config_log_verbosity,
        Event.input_scan_devices cfg.config_mouse_port cfg.config_joystick_port] ++
        device_queries W ++
        [Event.mcp_initialize D.MCP_I2C_BUS_NUMBER D.MCP_I2C_BASE_ADDR,
        Event.mouse_set_port cfg.config_mouse_port,
        Event.pthread_create .port_io_thread,
        Event.debug_log D.LOGLEVEL_ERROR .failed_port_io_thread,
        Event.exit (-1)], .exited (-1)⟩ := by
  have hG : (0 : Int) ≠ GLOB_NOMATCH := by decide
  have hcond : (!W.input_mouse_connected && !W.input_joysticks_connected) = false := by
    rcases hdev with h | h <;> simp [h]
  simp [startup, h0, hG, hcond, hio, Run.after, fatal]

theorem startup_event_poll_failed {D : Defaults} {W : World} {cfg : Config} (fuel : Nat)
    (h0 : W.input_scan_devices cfg.config_mouse_port cfg.config_joystick_port = 0)
    (hdev : W.input_mouse_connected = true ∨ W.input_joysticks_connected = true)
    (hio : W.pthread_create .port_io_thread = 0)
    (hpoll : W.pthread_create .input_poll_thread ≠ 0) :
    startup D W cfg fuel =
      ⟨[Event.debug_set_verbosity cfg.config_log_verbosity,
        Event.input_scan_devices cfg.config_mouse_port cfg.config_joystick_port] ++
        device_queries W ++
        [Event.mcp_initialize D.MCP_I2C_BUS_NUMBER D.MCP_I2C_BASE_ADDR,
        Event.mouse_set_port cfg.config_mouse_port,
        Event.pthread_create .port_io_thread,
        Event.sleep 1,
        Event.pthread_create .input_poll_thread,
        Event.debug_log D.LOGLEVEL_ERROR .failed_event_poll_thread,
        Event.exit (-1)], .exited (-1)⟩ := by
  have hG : (0 : Int) ≠ GLOB_NOMATCH := by decide
  have hcond : (!W.input_mouse_connected && !W.input_joysticks_connected) = false := by
    rcases hdev with h | h <;> simp [h]
  simp [startup, h0, hG, hcond, hio, hpoll, Run.after, fatal]

/-! ## The claims on the start-up path -/

/-- C1: on a command line that passes option parsing and with a scan that
returns 0, `main` logs "No suitable input devices ..." at error level and calls
`exit(-1)` (a non-zero status) when neither a mouse nor a joystick is connected,
without any call of `mcp_initialize`, `mouse_set_port` or `pthread_create`; when
one of the two is connected the device check is followed directly by
`mcp_initialize`. -/
theorem empty_device_set_is_fatal (D : Defaults) (L : Layout) (posix : Bool) (W : World)
    (argv : List String) (fuel : Nat) (cfg : Config)
    (hparse : option_loop D L (getopt posix argv) (Config.initial D) = .next cfg)
    (hscan : W.input_scan_devices cfg.config_mouse_port cfg.config_joystick_port = 0) :
    ((W.input_mouse_connected = false ∧ W.input_joysticks_connected = false) →
      main D L posix W argv fuel =
        ⟨[Event.debug_set_verbosity cfg.config_log_verbosity,
          Event.input_scan_devices cfg.config_mouse_port cfg.config_joystick_port,
          Event.input_mouse_connected, Event.input_joysticks_connected,
          Event.debug_log D.LOGLEVEL_ERROR .no_suitable_devices,
          Event.exit (-1)], .exited (-1)⟩ ∧
      exit_status (-1) ≠ 0 ∧
      ∀ e ∈ (main D L posix W argv fuel).trace, e.is_port_setup = false) ∧
    ((W.input_mouse_connected = true ∨ W.input_joysticks_connected = true) →
      (∃ post, (main D L posix W argv fuel).trace =
        [Event.debug_set_verbosity cfg.config_log_verbosity,
          Event.input_scan_devices cfg.config_mouse_port cfg.config_joystick_port] ++
        device_queries W ++
        Event.mcp_initialize D.MCP_I2C_BUS_NUMBER D.MCP_I2C_BASE_ADDR :: post) ∧
      Event.debug_log D.LOGLEVEL_ERROR .no_suitable_devices ∉
        (main D L posix W argv fuel).trace) := by
  have hG : (0 : Int) ≠ GLOB_NOMATCH := by decide
  rw [main_of_next W fuel hparse]
  refine ⟨?_, ?_⟩
  · rintro ⟨hm, hj⟩
    have hrun : startup D W cfg fuel =
        ⟨[Event.debug_set_verbosity cfg.config_log_verbosity,
          Event.input_scan_devices cfg.config_mouse_port cfg.config_joystick_port,
          Event.input_mouse_connected, Event.input_joysticks_connected,
          Event.debug_log D.LOGLEVEL_ERROR .no_suitable_devices,
          Event.exit (-1)], .exited (-1)⟩ := by
      simp [startup, hscan, hG, hm, hj, Run.after, fatal, device_queries]
    rw [hrun]
    refine ⟨rfl, by decide, ?_⟩
    intro e he
    simp only [List.mem_cons, List.mem_singleton, List.not_mem_nil, or_false] at he
    rcases he with h | h | h | h | h | h <;> subst h <;> rfl
  · intro hdev
    have hcond : (!W.input_mouse_connected && !W.input_joysticks_connected) = false := by
      rcases hdev with h | h <;> simp [h]
    by_cases hio : W.pthread_create .port_io_thread = 0 <;>
    by_cases hpoll : W.pthread_create .input_poll_thread = 0 <;>
    simp [startup, hscan, hG, hcond, hio, hpoll, Run.after, fatal, device_queries,
      idle_loop_one]

/-- C2: on a command line that passes option parsing, a scan that returns
`GLOB_NOMATCH` gives the "Could not find any input devices" log line, any other
non-zero return the "Error while scanning for input devices" log line, both
followed at once by `exit(-1)` (a non-zero status), with no device query and no
port set-up call; the device queries are reached exactly when the scan returns 0,
and then neither of the two log lines is written. -/
theorem scan_return_code_dispatch (D : Defaults) (L : Layout) (posix : Bool) (W : World)
    (argv : List String) (fuel : Nat) (cfg : Config)
    (hparse : option_loop D L (getopt posix argv) (Config.initial D) = .next cfg) :
    (W.input_scan_devices cfg.config_mouse_port cfg.config_joystick_port = GLOB_NOMATCH →
      main D L posix W argv fuel =
        ⟨[Event.debug_set_verbosity cfg.config_log_verbosity,
          Event.input_scan_devices cfg.config_mouse_port cfg.config_joystick_port,
          Event.debug_log D.LOGLEVEL_ERROR .could_not_find_devices,
          Event.exit (-1)], .exited (-1)⟩) ∧
    (W.input_scan_devices cfg.config_mouse_port cfg.config_joystick_port ≠ 0 →
      W.input_scan_devices cfg.config_mouse_port cfg.config_joystick_port ≠ GLOB_NOMATCH →
      main D L posix W argv fuel =
        ⟨[Event.debug_set_verbosity cfg.config_log_verbosity,
          Event.input_scan_devices cfg.config_mouse_port cfg.config_joystick_port,
          Event.debug_log D.LOGLEVEL_ERROR .error_while_scanning,
          Event.exit (-1)], .exited (-1)⟩) ∧
    (W.input_scan_devices cfg.config_mouse_port cfg.config_joystick_port ≠ 0 →
      (main D L posix W argv fuel).status = .exited (-1) ∧ exit_status (-1) ≠ 0 ∧
      ∀ e ∈ (main D L posix W argv fuel).trace,
        e.is_device_query = false ∧ e.is_port_setup = false) ∧
    (W.input_scan_devices cfg.config_mouse_port cfg.config_joystick_port = 0 →
      (∃ post, (main D L posix W argv fuel).trace =
        [Event.debug_set_verbosity cfg.config_log_verbosity,
          Event.input_scan_devices cfg.config_mouse_port cfg.config_joystick_port,
          Event.input_mouse_connected] ++ post) ∧
      Event.debug_log D.LOGLEVEL_ERROR .could_not_find_devices ∉
        (main D L posix W argv fuel).trace ∧
      Event.debug_log D.LOGLEVEL_ERROR .error_while_scanning ∉
        (main D L posix W argv fuel).trace) ∧
    (Event.input_mouse_connected ∈ (main D L posix W argv fuel).trace ↔
      W.input_scan_devices cfg.config_mouse_port cfg.config_joystick_port = 0) := by
  have hG : (0 : Int) ≠ GLOB_NOMATCH := by decide
  have hG2 : GLOB_NOMATCH ≠ (0 : Int) := by decide
  rw [main_of_next W fuel hparse]
  have hzero : W.input_scan_devices cfg.config_mouse_port cfg.config_joystick_port = 0 →
      (∃ post, (startup D W cfg fuel).trace =
        [Event.debug_set_verbosity cfg.config_log_verbosity,
          Event.input_scan_devices cfg.config_mouse_port cfg.config_joystick_port,
          Event.input_mouse_connected] ++ post) ∧
      Event.debug_log D.LOGLEVEL_ERROR .could_not_find_devices ∉
        (startup D W cfg fuel).trace ∧
      Event.debug_log D.LOGLEVEL_ERROR .error_while_scanning ∉
        (startup D W cfg fuel).trace := by
    intro h0
    by_cases hio : W.pthread_create .port_io_thread = 0 <;>
    by_cases hpoll : W.pthread_create .input_poll_thread = 0 <;>
    cases hm : W.input_mouse_connected <;>
    cases hj : W.input_joysticks_connected <;>
    simp [startup, h0, hG, hm, hj, hio, hpoll, Run.after, fatal, device_queries,
      idle_loop_one]
  have hnonzero : W.input_scan_devices cfg.config_mouse_port cfg.config_joystick_port ≠ 0 →
      ∃ m, startup D W cfg fuel =
        ⟨[Event.debug_set_verbosity cfg.config_log_verbosity,
          Event.input_scan_devices cfg.config_mouse_port cfg.config_joystick_port,
          Event.debug_log D.LOGLEVEL_ERROR m, Event.exit (-1)], .exited (-1)⟩ := by
    intro h0
    by_cases hg : W.input_scan_devices cfg.config_mouse_port cfg.config_joystick_port
        = GLOB_NOMATCH
    · exact ⟨.could_not_find_devices, by simp [startup, hg, Run.after, fatal]⟩
    · exact ⟨.error_while_scanning, by simp [startup, hg, h0, Run.after, fatal]⟩
  refine ⟨?_, ?_, ?_, hzero, ?_⟩
  · intro hg
    simp [startup, hg, Run.after, fatal]
  · intro h0 hg
    simp [startup, hg, h0, Run.after, fatal]
  · intro h0
    obtain ⟨m, hm⟩ := hnonzero h0
    rw [hm]
    refine ⟨rfl, by decide, ?_⟩
    intro e he
    simp only [List.mem_cons, List.mem_singleton, List.not_mem_nil, or_false] at he
    rcases he with h | h | h | h <;> subst h <;> exact ⟨rfl, rfl⟩
  · constructor
    · intro hin
      by_contra h0
      obtain ⟨m, hm⟩ := hnonzero h0
      rw [hm] at hin
      simp at hin
    · intro h0
      obtain ⟨⟨post, hp⟩, _⟩ := hzero h0
      rw [hp]
      simp

/-- C4: when option parsing passes, the scan returns 0, a mouse or a joystick
is connected and both `pthread_create` calls return 0, the calls of `main` are,
in this order, the scan, the device check, `mcp_initialize`, `mouse_set_port`,
the creation of the port I/O thread, `sleep(1)`, the creation of the event poll
thread, and then only `sleep(1)`: each start-up call occurs exactly once, and
after any number of passes of the final loop `main` is still running (it has
neither returned nor called `exit`). -/
theorem successful_startup_then_idle (D : Defaults) (L : Layout) (posix : Bool) (W : World)
    (argv : List String) (fuel : Nat) (cfg : Config)
    (hparse : option_loop D L (getopt posix argv) (Config.initial D) = .next cfg)
    (hscan : W.input_scan_devices cfg.config_mouse_port cfg.config_joystick_port = 0)
    (hdev : W.input_mouse_connected = true ∨ W.input_joysticks_connected = true)
    (hio : W.pthread_create .port_io_thread = 0)
    (hpoll : W.pthread_create .input_poll_thread = 0) :
    main D L posix W argv fuel =
      ⟨[Event.debug_set_verbosity cfg.config_log_verbosity,
        Event.input_scan_devices cfg.config_mouse_port cfg.config_joystick_port] ++
        device_queries W ++
        [Event.mcp_initialize D.MCP_I2C_BUS_NUMBER D.MCP_I2C_BASE_ADDR,
        Event.mouse_set_port cfg.config_mouse_port,
        Event.pthread_create .port_io_thread,
        Event.sleep 1,
        Event.pthread_create .input_poll_thread] ++
        List.replicate fuel (Event.sleep 1), .running⟩ ∧
    (main D L posix W argv fuel).trace.filter Event.is_startup_call =
      [Event.input_scan_devices cfg.config_mouse_port cfg.config_joystick_port,
        Event.mcp_initialize D.MCP_I2C_BUS_NUMBER D.MCP_I2C_BASE_ADDR,
        Event.mouse_set_port cfg.config_mouse_port,
        Event.pthread_create .port_io_thread,
        Event.pthread_create .input_poll_thread] ∧
    (main D L posix W argv fuel).status = .running ∧
    (∀ code, Event.exit code ∉ (main D L posix W argv fuel).trace) := by
  have hG : (0 : Int) ≠ GLOB_NOMATCH := by decide
  have hcond : (!W.input_mouse_connected && !W.input_joysticks_connected) = false := by
    rcases hdev with h | h <;> simp [h]
  have hrun : main D L posix W argv fuel =
      ⟨[Event.debug_set_verbosity cfg.config_log_verbosity,
        Event.input_scan_devices cfg.config_mouse_port cfg.config_joystick_port] ++
        device_queries W ++
        [Event.mcp_initialize D.MCP_I2C_BUS_NUMBER D.MCP_I2C_BASE_ADDR,
        Event.mouse_set_port cfg.config_mouse_port,
        Event.pthread_create .port_io_thread,
        Event.sleep 1,
        Event.pthread_create .input_poll_thread] ++
        List.replicate fuel (Event.sleep 1), .running⟩ := by
    rw [main_of_next W fuel hparse]
    simp [startup, hscan, hG, hcond, hio, hpoll, Run.after, idle_loop_one]
  have hsleep : (List.replicate fuel (Event.sleep 1)).filter Event.is_startup_call = [] := by
    rw [List.filter_eq_nil_iff]
    intro e he
    rw [List.eq_of_mem_replicate he]
    simp [Event.is_startup_call, Event.is_port_setup]
  rw [hrun]
  refine ⟨rfl, ?_, rfl, ?_⟩
  · simp only [List.filter_append, hsleep, List.append_nil]
    cases W.input_mouse_connected <;>
      simp [device_queries, List.filter, Event.is_startup_call, Event.is_port_setup]
  · intro code hin
    simp only [List.mem_append, List.mem_cons, List.mem_singleton, List.not_mem_nil,
      or_false, device_queries] at hin
    rcases hin with ((h | h) | h) | h
    · rcases h with h | h <;> cases h
    · rcases h with h | h
      · cases h
      · split at h <;> simp at h
    · rcases h with h | h | h | h | h <;> cases h
    · have := List.eq_of_mem_replicate h
      cases this

/-- C3: for every command line, every memory layout and every outcome of the
collaborators: (1) an execution of `main` either is still running or has ended in
`exit(code)` with a non-zero status, the call just before `exit` being a
diagnostic (a text on `stderr` or an error-level log line) and no `exit` coming
earlier; `main` never exits with status 0 and never returns; when the creation
of the port I/O thread fails, the event poll thread is not created. (2) `main` is
still running only when option parsing passed, the scan returned 0, a mouse or
joystick is connected and both threads were created. (3) Each fatal condition
of the option loop ends `main` with its text on `stderr` and
`exit(EXIT_FAILURE)`: `-h` or an unknown option or a missing argument (usage),
a negative `-i` value, an `-a` value outside 0..0xff, an `-m` or `-j` option
that leaves its port variable at neither 1 nor 2. (4) Each fatal condition of
the start-up ends `main` with its error-level log line and `exit(-1)`: scan
no-match, scan error, no usable device, failure of either `pthread_create`. -/
theorem every_exit_is_a_failure (D : Defaults) (L : Layout) (posix : Bool) (W : World)
    (argv : List String) (fuel : Nat) :
    (((main D L posix W argv fuel).status = .running ∨
      ∃ code pre d,
        main D L posix W argv fuel = ⟨pre ++ [d, Event.exit code], .exited code⟩ ∧
        d.is_diagnostic D = true ∧ exit_status code ≠ 0 ∧ code ≠ 0 ∧
        ∀ c, Event.exit c ∉ pre) ∧
    (main D L posix W argv fuel).status ≠ .exited 0 ∧
    (∀ v, (main D L posix W argv fuel).status ≠ .returned v) ∧
    (W.pthread_create .port_io_thread ≠ 0 →
      Event.pthread_create .input_poll_thread ∉ (main D L posix W argv fuel).trace)) ∧
    ((main D L posix W argv fuel).status = .running ↔
      ∃ cfg, option_loop D L (getopt posix argv) (Config.initial D) = .next cfg ∧
        W.input_scan_devices cfg.config_mouse_port cfg.config_joystick_port = 0 ∧
        (W.input_mouse_connected = true ∨ W.input_joysticks_connected = true) ∧
        W.pthread_create .port_io_thread = 0 ∧
        W.pthread_create .input_poll_thread = 0) ∧
    (∀ pre g post cfg, getopt posix argv = pre ++ g :: post →
      option_loop D L pre (Config.initial D) = .next cfg →
      (g.opt ∉ ['q', 'v', 'i', 'a', 'd', 'm', 'j'] →
        main D L posix W argv fuel =
          ⟨[Event.fprintf_stderr .usage_synopsis, Event.fprintf_stderr .usage_options,
            Event.exit EXIT_FAILURE], .exited EXIT_FAILURE⟩) ∧
      (g.opt = 'i' → assign_d g.optarg cfg.config_i2c_bus < 0 →
        main D L posix W argv fuel =
          ⟨[Event.fprintf_stderr .invalid_i2c_bus, Event.exit EXIT_FAILURE],
            .exited EXIT_FAILURE⟩) ∧
      (g.opt = 'a' →
        assign_0x02x g.optarg cfg.config_i2c_base < 0 ∨
          assign_0x02x g.optarg cfg.config_i2c_base > 0xff →
        main D L posix W argv fuel =
          ⟨[Event.fprintf_stderr .invalid_i2c_base, Event.exit EXIT_FAILURE],
            .exited EXIT_FAILURE⟩) ∧
      (g.opt = 'm' →
        (sscanf_d_mouse_port L g.optarg cfg).config_mouse_port ≠ 1 →
        (sscanf_d_mouse_port L g.optarg cfg).config_mouse_port ≠ 2 →
        main D L posix W argv fuel =
          ⟨[Event.fprintf_stderr .invalid_mouse_port, Event.exit EXIT_FAILURE],
            .exited EXIT_FAILURE⟩) ∧
      (g.opt = 'j' →
        (sscanf_d_joystick_port L g.optarg cfg).config_joystick_port ≠ 1 →
        (sscanf_d_joystick_port L g.optarg cfg).config_joystick_port ≠ 2 →
        main D L posix W argv fuel =
          ⟨[Event.fprintf_stderr .invalid_joystick_port, Event.exit EXIT_FAILURE],
            .exited EXIT_FAILURE⟩)) ∧
    (∀ cfg, option_loop D L (getopt posix argv) (Config.initial D) = .next cfg →
      (W.input_scan_devices cfg.config_mouse_port cfg.config_joystick_port = GLOB_NOMATCH →
        main D L posix W argv fuel =
          ⟨[Event.debug_set_verbosity cfg.config_log_verbosity,
            Event.input_scan_devices cfg.config_mouse_port cfg.config_joystick_port,
            Event.debug_log D.LOGLEVEL_ERROR .could_not_find_devices,
            Event.exit (-1)], .exited (-1)⟩) ∧
      (W.input_scan_devices cfg.config_mouse_port cfg.config_joystick_port ≠ 0 →
        W.input_scan_devices cfg.config_mouse_port cfg.config_joystick_port
          ≠ GLOB_NOMATCH →
        main D L posix W argv fuel =
          ⟨[Event.debug_set_verbosity cfg.config_log_verbosity,
            Event.input_scan_devices cfg.config_mouse_port cfg.config_joystick_port,
            Event.debug_log D.LOGLEVEL_ERROR .error_while_scanning,
            Event.exit (-1)], .exited (-1)⟩) ∧
      (W.input_scan_devices cfg.config_mouse_port cfg.config_joystick_port = 0 →
        W.input_mouse_connected = false → W.input_joysticks_connected = false →
        main D L posix W argv fuel =
          ⟨[Event.debug_set_verbosity cfg.config_log_verbosity,
            Event.input_scan_devices cfg.config_mouse_port cfg.config_joystick_port,
            Event.input_mouse_connected, Event.input_joysticks_connected,
            Event.debug_log D.LOGLEVEL_ERROR .no_suitable_devices,
            Event.exit (-1)], .exited (-1)⟩) ∧
      (W.input_scan_devices cfg.config_mouse_port cfg.config_joystick_port = 0 →
        W.input_mouse_connected = true ∨ W.input_joysticks_connected = true →
        W.pthread_create .port_io_thread ≠ 0 →
        main D L posix W argv fuel =
          ⟨[Event.debug_set_verbosity cfg.config_log_verbosity,
            Event.input_scan_devices cfg.config_mouse_port cfg.config_joystick_port] ++
            device_queries W ++
            [Event.mcp_initialize D.MCP_I2C_BUS_NUMBER D.MCP_I2C_BASE_ADDR,
            Event.mouse_set_port cfg.config_mouse_port,
            Event.pthread_create .port_io_thread,
            Event.debug_log D.LOGLEVEL_ERROR .failed_port_io_thread,
            Event.exit (-1)], .exited (-1)⟩) ∧
      (W.input_scan_devices cfg.config_mouse_port cfg.config_joystick_port = 0 →
        W.input_mouse_connected = true ∨ W.input_joysticks_connected = true →
        W.pthread_create .port_io_thread = 0 →
        W.pthread_create .input_poll_thread ≠ 0 →
        main D L posix W argv fuel =
          ⟨[Event.debug_set_verbosity cfg.config_log_verbosity,
            Event.input_scan_devices cfg.config_mouse_port cfg.config_joystick_port] ++
            device_queries W ++
            [Event.mcp_initialize D.MCP_I2C_BUS_NUMBER D.MCP_I2C_BASE_ADDR,
            Event.mouse_set_port cfg.config_mouse_port,
            Event.pthread_create .port_io_thread,
            Event.sleep 1,
            Event.pthread_create .input_poll_thread,
            Event.debug_log D.LOGLEVEL_ERROR .failed_event_poll_thread,
            Event.exit (-1)], .exited (-1)⟩)) := by
  have key : (main D L posix W argv fuel).status = .running ∨
      ∃ code pre d,
        main D L posix W argv fuel = ⟨pre ++ [d, Event.exit code], .exited code⟩ ∧
        d.is_diagnostic D = true ∧ exit_status code ≠ 0 ∧ code ≠ 0 ∧
        ∀ c, Event.exit c ∉ pre := by
    cases hp : option_loop D L (getopt posix argv) (Config.initial D) with
    | next cfg =>
      rw [main_of_next W fuel hp]
      rcases startup_outcome D W cfg fuel with h | ⟨pre, m, h, hpre⟩
      · exact Or.inl h
      · exact Or.inr ⟨-1, pre, Event.debug_log D.LOGLEVEL_ERROR m, h,
          by simp [Event.is_diagnostic], by decide, by decide, hpre⟩
    | stop r =>
      rw [main_of_stop W fuel hp]
      right
      rcases option_loop_stop_shape _ _ hp with h | ⟨m, h⟩
      · exact ⟨EXIT_FAILURE, [Event.fprintf_stderr .usage_synopsis],
          Event.fprintf_stderr .usage_options, by rw [h]; rfl, rfl, by decide, by decide,
          by simp⟩
      · exact ⟨EXIT_FAILURE, [], Event.fprintf_stderr m, by rw [h]; rfl, rfl, by decide,
          by decide, by simp⟩
  refine ⟨⟨key, ?_, ?_, ?_⟩, ?_, ?_, ?_⟩
  · rcases key with h | ⟨code, pre, d, h, _, _, hc, _⟩
    · rw [h]; simp
    · rw [h]
      simpa using hc
  · intro v
    rcases key with h | ⟨code, pre, d, h, _⟩
    · rw [h]; simp
    · rw [h]; simp
  · intro hio hin
    cases hp : option_loop D L (getopt posix argv) (Config.initial D) with
    | next cfg =>
      rw [main_of_next W fuel hp] at hin
      exact hio (startup_poll_thread_mem hin)
    | stop r =>
      rw [main_of_stop W fuel hp] at hin
      rcases option_loop_stop_shape _ _ hp with h | ⟨m, h⟩ <;>
        · rw [h] at hin
          simp [fatal] at hin
  · cases hp : option_loop D L (getopt posix argv) (Config.initial D) with
    | next cfg =>
      rw [main_of_next W fuel hp, startup_running_iff]
      constructor
      · intro h
        exact ⟨cfg, rfl, h⟩
      · rintro ⟨cfg2, hc, h⟩
        cases hc
        exact h
    | stop r =>
      rw [main_of_stop W fuel hp]
      constructor
      · intro h
        rcases option_loop_stop_shape _ _ hp with h2 | ⟨m, h2⟩ <;>
          · rw [h2] at h
            simp [fatal] at h
      · rintro ⟨cfg2, hc, _⟩
        cases hc
  · intro pre g post cfg hargv hpre
    refine ⟨?_, ?_, ?_, ?_, ?_⟩
    · intro hopt
      simp only [List.mem_cons, List.mem_singleton, List.not_mem_nil, or_false,
        not_or] at hopt
      obtain ⟨hq, hv, hi, ha, hd, hm, hj⟩ := hopt
      have hs : switch_opt D L g cfg =
          .stop (fatal [Event.fprintf_stderr .usage_synopsis,
            Event.fprintf_stderr .usage_options] EXIT_FAILURE) := by
        simp [switch_opt, hq, hv, hi, ha, hd, hm, hj]
      rw [main_of_stop_at W fuel hargv hpre hs]
      rfl
    · intro hopt h1
      have hs : switch_opt D L g cfg =
          .stop (fatal [Event.fprintf_stderr .invalid_i2c_bus] EXIT_FAILURE) := by
        simp [switch_opt, hopt, h1]
      rw [main_of_stop_at W fuel hargv hpre hs]
      rfl
    · intro hopt h1
      have hs : switch_opt D L g cfg =
          .stop (fatal [Event.fprintf_stderr .invalid_i2c_base] EXIT_FAILURE) := by
        simp only [switch_opt, hopt]
        simp [h1]
      rw [main_of_stop_at W fuel hargv hpre hs]
      rfl
    · intro hopt h1 h2
      have hs : switch_opt D L g cfg =
          .stop (fatal [Event.fprintf_stderr .invalid_mouse_port] EXIT_FAILURE) := by
        simp [switch_opt, hopt, h1, h2]
      rw [main_of_stop_at W fuel hargv hpre hs]
      rfl
    · intro hopt h1 h2
      have hs : switch_opt D L g cfg =
          .stop (fatal [Event.fprintf_stderr .invalid_joystick_port] EXIT_FAILURE) := by
        simp [switch_opt, hopt, h1, h2]
      rw [main_of_stop_at W fuel hargv hpre hs]
      rfl
  · intro cfg hp
    rw [main_of_next W fuel hp]
    exact ⟨startup_no_match fuel, startup_scan_error fuel, startup_no_device fuel,
      startup_port_io_failed fuel, startup_event_poll_failed fuel⟩

/-! ## Witnesses of the claims on the start-up path -/

theorem empty_device_set_is_fatal_witness :
    main usageDefaults Layout.declaration_order false emptyWorld ["joyemu"] 0 =
      ⟨[Event.debug_set_verbosity 2, Event.input_scan_devices 1 2,
        Event.input_mouse_connected, Event.input_joysticks_connected,
        Event.debug_log 4 .no_suitable_devices, Event.exit (-1)], .exited (-1)⟩ ∧
    Event.debug_log 4 .no_suitable_devices ∉
      (main usageDefaults Layout.declaration_order false sampleWorld ["joyemu"] 0).trace :=
  ⟨((empty_device_set_is_fatal usageDefaults Layout.declaration_order false emptyWorld
      ["joyemu"] 0 (Config.initial usageDefaults) rfl rfl).1 ⟨rfl, rfl⟩).1,
   ((empty_device_set_is_fatal usageDefaults Layout.declaration_order false sampleWorld
      ["joyemu"] 0 (Config.initial usageDefaults) rfl rfl).2 (Or.inl rfl)).2⟩

theorem scan_return_code_dispatch_witness :
    main usageDefaults Layout.declaration_order false noMatchWorld ["joyemu"] 0 =
      ⟨[Event.debug_set_verbosity 2, Event.input_scan_devices 1 2,
        Event.debug_log 4 .could_not_find_devices, Event.exit (-1)], .exited (-1)⟩ ∧
    main usageDefaults Layout.declaration_order false scanErrorWorld ["joyemu"] 0 =
      ⟨[Event.debug_set_verbosity 2, Event.input_scan_devices 1 2,
        Event.debug_log 4 .error_while_scanning, Event.exit (-1)], .exited (-1)⟩ ∧
    Event.debug_log 4 .error_while_scanning ∉
      (main usageDefaults Layout.declaration_order false sampleWorld ["joyemu"] 0).trace :=
  ⟨(scan_return_code_dispatch usageDefaults Layout.declaration_order false noMatchWorld
      ["joyemu"] 0 (Config.initial usageDefaults) rfl).1 rfl,
   (scan_return_code_dispatch usageDefaults Layout.declaration_order false scanErrorWorld
      ["joyemu"] 0 (Config.initial usageDefaults) rfl).2.1 (by decide) (by decide),
   ((scan_return_code_dispatch usageDefaults Layout.declaration_order false sampleWorld
      ["joyemu"] 0 (Config.initial usageDefaults) rfl).2.2.2.1 rfl).2.2⟩

theorem every_exit_is_a_failure_witness :
    main usageDefaults Layout.declaration_order false sampleWorld ["joyemu", "-h"] 0 =
      ⟨[Event.fprintf_stderr .usage_synopsis, Event.fprintf_stderr .usage_options,
        Event.exit 1], .exited 1⟩ ∧
    main usageDefaults Layout.declaration_order false sampleWorld ["joyemu", "-x"] 0 =
      ⟨[Event.fprintf_stderr .usage_synopsis, Event.fprintf_stderr .usage_options,
        Event.exit 1], .exited 1⟩ ∧
    main usageDefaults Layout.declaration_order false sampleWorld ["joyemu", "-v", "-i", "-7"] 0 =
      ⟨[Event.fprintf_stderr .invalid_i2c_bus, Event.exit 1], .exited 1⟩ ∧
    main usageDefaults Layout.declaration_order false sampleWorld ["joyemu", "-a", "0x-1"] 0 =
      ⟨[Event.fprintf_stderr .invalid_i2c_base, Event.exit 1], .exited 1⟩ ∧
    main usageDefaults Layout.reverse_order false sampleWorld ["joyemu", "-m", "3"] 0 =
      ⟨[Event.fprintf_stderr .invalid_mouse_port, Event.exit 1], .exited 1⟩ ∧
    main usageDefaults Layout.declaration_order false sampleWorld ["joyemu", "-j", "0"] 0 =
      ⟨[Event.fprintf_stderr .invalid_joystick_port, Event.exit 1], .exited 1⟩ ∧
    main usageDefaults Layout.declaration_order false noThreadWorld ["joyemu"] 3 =
      ⟨[Event.debug_set_verbosity 2, Event.input_scan_devices 1 2,
        Event.input_mouse_connected, Event.mcp_initialize 1 0x20,
        Event.mouse_set_port 1, Event.pthread_create .port_io_thread,
        Event.debug_log 4 .failed_port_io_thread, Event.exit (-1)], .exited (-1)⟩ ∧
    main usageDefaults Layout.declaration_order false noPollWorld ["joyemu"] 3 =
      ⟨[Event.debug_set_verbosity 2, Event.input_scan_devices 1 2,
        Event.input_mouse_connected, Event.mcp_initialize 1 0x20,
        Event.mouse_set_port 1, Event.pthread_create .port_io_thread, Event.sleep 1,
        Event.pthread_create .input_poll_thread,
        Event.debug_log 4 .failed_event_poll_thread, Event.exit (-1)], .exited (-1)⟩ ∧
    Event.pthread_create .input_poll_thread ∉
      (main usageDefaults Layout.declaration_order false noThreadWorld ["joyemu"] 3).trace ∧
    (main usageDefaults Layout.declaration_order false sampleWorld ["joyemu"] 3).status
      = .running :=
  ⟨((every_exit_is_a_failure usageDefaults Layout.declaration_order false sampleWorld
      ["joyemu", "-h"] 0).2.2.1 [] ⟨'h', []⟩ [] (Config.initial usageDefaults)
      rfl rfl).1 (by decide),
   ((every_exit_is_a_failure usageDefaults Layout.declaration_order false sampleWorld
      ["joyemu", "-x"] 0).2.2.1 [] ⟨'?', []⟩ [] (Config.initial usageDefaults)
      rfl rfl).1 (by decide),
   ((every_exit_is_a_failure usageDefaults Layout.declaration_order false sampleWorld
      ["joyemu", "-v", "-i", "-7"] 0).2.2.1 [⟨'v', []⟩] ⟨'i', ['-', '7']⟩ []
      { Config.initial usageDefaults with config_log_verbosity := 1 }
      rfl rfl).2.1 rfl (by decide),
   ((every_exit_is_a_failure usageDefaults Layout.declaration_order false sampleWorld
      ["joyemu", "-a", "0x-1"] 0).2.2.1 [] ⟨'a', ['0', 'x', '-', '1']⟩ []
      (Config.initial usageDefaults) rfl rfl).2.2.1 rfl (by decide),
   ((every_exit_is_a_failure usageDefaults Layout.reverse_order false sampleWorld
      ["joyemu", "-m", "3"] 0).2.2.1 [] ⟨'m', ['3']⟩ []
      (Config.initial usageDefaults) rfl rfl).2.2.2.1 rfl (by decide) (by decide),
   ((every_exit_is_a_failure usageDefaults Layout.declaration_order false sampleWorld
      ["joyemu", "-j", "0"] 0).2.2.1 [] ⟨'j', ['0']⟩ []
      (Config.initial usageDefaults) rfl rfl).2.2.2.2 rfl (by decide) (by decide),
   ((every_exit_is_a_failure usageDefaults Layout.declaration_order false noThreadWorld
      ["joyemu"] 3).2.2.2 (Config.initial usageDefaults) rfl).2.2.2.1
      rfl (Or.inl rfl) (by decide),
   ((every_exit_is_a_failure usageDefaults Layout.declaration_order false noPollWorld
      ["joyemu"] 3).2.2.2 (Config.initial usageDefaults) rfl).2.2.2.2
      rfl (Or.inl rfl) rfl (by decide),
   (every_exit_is_a_failure usageDefaults Layout.declaration_order false noThreadWorld
      ["joyemu"] 3).1.2.2.2 (by decide),
   (every_exit_is_a_failure usageDefaults Layout.declaration_order false sampleWorld
      ["joyemu"] 3).2.1.mpr ⟨Config.initial usageDefaults, rfl, rfl, Or.inl rfl, rfl, rfl⟩⟩

theorem successful_startup_then_idle_witness :
    main usageDefaults Layout.declaration_order false sampleWorld
        ["joyemu", "-j", "1", "-m", "2"] 2 =
      ⟨[Event.debug_set_verbosity 2, Event.input_scan_devices 2 1,
        Event.input_mouse_connected, Event.mcp_initialize 1 0x20,
        Event.mouse_set_port 2, Event.pthread_create .port_io_thread, Event.sleep 1,
        Event.pthread_create .input_poll_thread, Event.sleep 1, Event.sleep 1],
        .running⟩ :=
  (successful_startup_then_idle usageDefaults Layout.declaration_order false sampleWorld
    ["joyemu", "-j", "1", "-m", "2"] 2
    { Config.initial usageDefaults with config_mouse_port := 2, config_joystick_port := 1 }
    rfl rfl (Or.inl rfl) rfl rfl).1

/-! ## Where the code departs from its usage and error texts -/

theorem mcp_initialize_mem {D : Defaults} {L : Layout} {posix : Bool} {W : World} {argv : List String}
    {fuel : Nat} {bus base : Int}
    (h : Event.mcp_initialize bus base ∈ (main D L posix W argv fuel).trace) :
    bus = D.MCP_I2C_BUS_NUMBER ∧ base = D.MCP_I2C_BASE_ADDR := by
  have hG : (0 : Int) ≠ GLOB_NOMATCH := by decide
  cases hp : option_loop D L (getopt posix argv) (Config.initial D) with
  | stop r =>
    rw [main_of_stop W fuel hp] at h
    rcases option_loop_stop_shape _ _ hp with h2 | ⟨m, h2⟩ <;>
      · rw [h2] at h
        simp [fatal] at h
  | next cfg =>
    rw [main_of_next W fuel hp] at h
    revert h
    by_cases hg : W.input_scan_devices cfg.config_mouse_port cfg.config_joystick_port
        = GLOB_NOMATCH
    · simp [startup, hg, Run.after, fatal]
    · by_cases h0 : W.input_scan_devices cfg.config_mouse_port cfg.config_joystick_port = 0
      · by_cases hio : W.pthread_create .port_io_thread = 0 <;>
        by_cases hpoll : W.pthread_create .input_poll_thread = 0 <;>
        cases hm : W.input_mouse_connected <;>
        cases hj : W.input_joysticks_connected <;>
        simp [startup, h0, hG, hm, hj, hio, hpoll, Run.after, fatal, device_queries,
          idle_loop_one]
      · simp [startup, hg, h0, Run.after, fatal]

/-- C5 (the code departs from the claim): a valid port option leaves the other
port at 0, and the scan is called with it. With the variables in declaration
order, `joyemu -j 1` stores the four bytes 01 00 00 00 at `config_joystick_port`,
the second of which lands on `config_mouse_port`: `input_scan_devices(0, 1)` and
`mouse_set_port(0)` are called. With the variables in reverse order,
`joyemu -m 1` overwrites `config_joystick_port`: `input_scan_devices(1, 0)` is
called. Neither command line ends in the "Invalid ... port" text. -/
theorem valid_port_option_zeroes_other_port :
    main usageDefaults Layout.declaration_order false sampleWorld ["joyemu", "-j", "1"] 0 =
      ⟨[Event.debug_set_verbosity 2, Event.input_scan_devices 0 1,
        Event.input_mouse_connected, Event.mcp_initialize 1 0x20,
        Event.mouse_set_port 0, Event.pthread_create .port_io_thread, Event.sleep 1,
        Event.pthread_create .input_poll_thread], .running⟩ ∧
    main usageDefaults Layout.reverse_order false sampleWorld ["joyemu", "-m", "1"] 0 =
      ⟨[Event.debug_set_verbosity 2, Event.input_scan_devices 1 0,
        Event.input_mouse_connected, Event.mcp_initialize 1 0x20,
        Event.mouse_set_port 1, Event.pthread_create .port_io_thread, Event.sleep 1,
        Event.pthread_create .input_poll_thread], .running⟩ := by
  decide

/-- C6 (the code departs from the claim): on `joyemu -i 0 -a 0x21` the option
loop accepts both options and leaves `config_i2c_bus = 0` and
`config_i2c_base = 0x21`, yet `mcp_initialize` is called with the defaults 1 and
0x20, exactly as on `joyemu` without options; this on every memory layout. -/
theorem i2c_options_do_not_reach_mcp_initialize (L : Layout) :
    option_loop usageDefaults L (getopt false ["joyemu", "-i", "0", "-a", "0x21"])
        (Config.initial usageDefaults) =
      .next { Config.initial usageDefaults with
        config_i2c_bus := 0, config_i2c_base := 0x21 } ∧
    main usageDefaults L false sampleWorld ["joyemu", "-i", "0", "-a", "0x21"] 0 =
      ⟨[Event.debug_set_verbosity 2, Event.input_scan_devices 1 2,
        Event.input_mouse_connected, Event.mcp_initialize 1 0x20,
        Event.mouse_set_port 1, Event.pthread_create .port_io_thread, Event.sleep 1,
        Event.pthread_create .input_poll_thread], .running⟩ ∧
    main usageDefaults L false sampleWorld ["joyemu", "-i", "0", "-a", "0x21"] 0 =
      main usageDefaults L false sampleWorld ["joyemu"] 0 :=
  ⟨rfl, rfl, rfl⟩

/-- C7 (the code departs from the claim): on `joyemu -m 258` the value read is
258, which is neither 1 nor 2, yet the option is accepted: `config_mouse_port`
holds the low byte 2, and both `input_scan_devices` and `mouse_set_port` receive
mouse port 2 instead of the default 1, on every memory layout. Likewise on
`joyemu -m 2 -m 257` both receive mouse port 1, not the 2 of the last `-m`
option with a value of 1 or 2. The joystick port and the verbosity that go with
it are those of the layout; they are given for the two layouts of gcc. -/
theorem mouse_port_258_is_scanned_as_2 :
    sscanf_d "258".toList = some 258 ∧
    (∀ L : Layout, ∃ v j,
      main usageDefaults L false sampleWorld ["joyemu", "-m", "258"] 0 =
        ⟨[Event.debug_set_verbosity v, Event.input_scan_devices 2 j,
          Event.input_mouse_connected, Event.mcp_initialize 1 0x20,
          Event.mouse_set_port 2, Event.pthread_create .port_io_thread, Event.sleep 1,
          Event.pthread_create .input_poll_thread], .running⟩) ∧
    main usageDefaults Layout.declaration_order false sampleWorld ["joyemu", "-m", "258"] 0 =
      ⟨[Event.debug_set_verbosity 2, Event.input_scan_devices 2 2,
        Event.input_mouse_connected, Event.mcp_initialize 1 0x20,
        Event.mouse_set_port 2, Event.pthread_create .port_io_thread, Event.sleep 1,
        Event.pthread_create .input_poll_thread], .running⟩ ∧
    main usageDefaults Layout.reverse_order false sampleWorld ["joyemu", "-m", "258"] 0 =
      ⟨[Event.debug_set_verbosity 2, Event.input_scan_devices 2 1,
        Event.input_mouse_connected, Event.mcp_initialize 1 0x20,
        Event.mouse_set_port 2, Event.pthread_create .port_io_thread, Event.sleep 1,
        Event.pthread_create .input_poll_thread], .running⟩ ∧
    sscanf_d "257".toList = some 257 ∧
    (∀ L : Layout, ∃ v j,
      main usageDefaults L false sampleWorld ["joyemu", "-m", "2", "-m", "257"] 0 =
        ⟨[Event.debug_set_verbosity v, Event.input_scan_devices 1 j,
          Event.input_mouse_connected, Event.mcp_initialize 1 0x20,
          Event.mouse_set_port 1, Event.pthread_create .port_io_thread, Event.sleep 1,
          Event.pthread_create .input_poll_thread], .running⟩) :=
  ⟨by decide, fun _ => ⟨_, _, rfl⟩, by decide, by decide, by decide,
    fun _ => ⟨_, _, rfl⟩⟩

/-- C8 (the code departs from the claim): `-a 0x123` is accepted and leaves
`config_i2c_base = 0x12`; `-a 21` (no `0x`) and `-i abc` are accepted and leave
the variables at their defaults; none of the three command lines ends in the
"Invalid I2C ..." text; this on every memory layout. -/
theorem malformed_i2c_arguments_are_accepted (L : Layout) :
    option_loop usageDefaults L (getopt false ["joyemu", "-a", "0x123"])
        (Config.initial usageDefaults) =
      .next { Config.initial usageDefaults with config_i2c_base := 0x12 } ∧
    option_loop usageDefaults L (getopt false ["joyemu", "-a", "21"])
        (Config.initial usageDefaults) = .next (Config.initial usageDefaults) ∧
    option_loop usageDefaults L (getopt false ["joyemu", "-i", "abc"])
        (Config.initial usageDefaults) = .next (Config.initial usageDefaults) ∧
    (main usageDefaults L false sampleWorld ["joyemu", "-a", "0x123"] 0).status
      = .running :=
  ⟨rfl, rfl, rfl, rfl⟩

theorem switch_opt_erase_d (D : Defaults) (L : Layout) (g : GetoptReturn) (cfg : Config) :
    switch_opt D L (erase_d_argument g) cfg = switch_opt D L g cfg := by
  by_cases h : g.opt = 'd'
  · simp [erase_d_argument, switch_opt, h]
  · simp [erase_d_argument, h]

theorem option_loop_erase_d (D : Defaults) (L : Layout) :
    ∀ (gs : List GetoptReturn) (cfg : Config),
      option_loop D L (gs.map erase_d_argument) cfg = option_loop D L gs cfg := by
  intro gs
  induction gs with
  | nil => intro cfg; rfl
  | cons g gs ih =>
    intro cfg
    simp only [List.map_cons, option_loop, switch_opt_erase_d]
    cases switch_opt D L g cfg with
    | next c => exact ih c
    | stop r => rfl

theorem getopt_d_first (posix : Bool) (prog x : String) (rest : List String) :
    getopt posix (prog :: "-d" :: x :: rest) =
      ⟨'d', x.toList⟩ :: getopt_returns posix (rest.map String.toList) := by
  rfl

/-- C9 (the code departs from the claim): the argument of `-d` has no effect.
Two command lines that start with `-d x` and `-d y` and are otherwise equal give
the same configuration after parsing and the same execution of `main`, for all
`x` and `y`; and in general the option loop gives the same result when the
argument of every `-d` return of `getopt` is erased. -/
theorem d_argument_is_ignored (D : Defaults) (L : Layout) (posix : Bool) (W : World)
    (prog x y : String) (rest : List String) (fuel : Nat) :
    option_loop D L (getopt posix (prog :: "-d" :: x :: rest)) (Config.initial D) =
      option_loop D L (getopt posix (prog :: "-d" :: y :: rest)) (Config.initial D) ∧
    main D L posix W (prog :: "-d" :: x :: rest) fuel =
      main D L posix W (prog :: "-d" :: y :: rest) fuel ∧
    (∀ gs cfg, option_loop D L (gs.map erase_d_argument) cfg = option_loop D L gs cfg) := by
  have hloop :
      option_loop D L (getopt posix (prog :: "-d" :: x :: rest)) (Config.initial D) =
      option_loop D L (getopt posix (prog :: "-d" :: y :: rest)) (Config.initial D) := by
    rw [getopt_d_first, getopt_d_first]
    simp [option_loop, switch_opt]
  refine ⟨hloop, ?_, option_loop_erase_d D L⟩
  simp only [main, hloop]

/-! ## Further properties of the option loop and the start-up -/

theorem sscanf_d_mouse_port_i2c {L : Layout} (hL : L.spares_i2c) (s : List Char)
    (cfg : Config) :
    (sscanf_d_mouse_port L s cfg).config_i2c_bus = cfg.config_i2c_bus ∧
    (sscanf_d_mouse_port L s cfg).config_i2c_base = cfg.config_i2c_base := by
  unfold sscanf_d_mouse_port
  cases sscanf_d s with
  | none => exact ⟨rfl, rfl⟩
  | some v => exact ⟨(hL v cfg).1, (hL v cfg).2.1⟩

theorem sscanf_d_joystick_port_i2c {L : Layout} (hL : L.spares_i2c) (s : List Char)
    (cfg : Config) :
    (sscanf_d_joystick_port L s cfg).config_i2c_bus = cfg.config_i2c_bus ∧
    (sscanf_d_joystick_port L s cfg).config_i2c_base = cfg.config_i2c_base := by
  unfold sscanf_d_joystick_port
  cases sscanf_d s with
  | none => exact ⟨rfl, rfl⟩
  | some v => exact ⟨(hL v cfg).2.2.1, (hL v cfg).2.2.2⟩

theorem switch_opt_i2c_valid {D : Defaults} {L : Layout} {g : GetoptReturn}
    {cfg cfg2 : Config} (hL : L.spares_i2c)
    (hv : cfg.i2c_valid) (h : switch_opt D L g cfg = .next cfg2) : cfg2.i2c_valid := by
  simp only [switch_opt] at h
  split_ifs at h <;> have h := Step.next.inj h <;> subst h
  · exact hv
  · exact hv
  · exact hv
  · exact hv
  · rename_i hbus
    exact ⟨not_lt.mp hbus, hv.2⟩
  · rename_i hbase
    simp only [not_or, not_lt, gt_iff_lt] at hbase
    exact ⟨hv.1, hbase.1, hbase.2⟩
  · exact hv
  · obtain ⟨h1, h2⟩ := sscanf_d_mouse_port_i2c hL g.optarg cfg
    simp only [Config.i2c_valid, h1, h2]
    exact hv
  · obtain ⟨h1, h2⟩ := sscanf_d_joystick_port_i2c hL g.optarg cfg
    simp only [Config.i2c_valid, h1, h2]
    exact hv

/-- With defaults in range and a memory layout in which the bytes written past
the port variables miss the two I2C variables, a command line that passes
option parsing leaves `config_i2c_bus >= 0` and `0 <= config_i2c_base <= 0xff`. -/
theorem accepted_i2c_configuration_in_range (D : Defaults) (L : Layout) (posix : Bool)
    (argv : List String) (cfg : Config)
    (hL : L.spares_i2c)
    (hbus : 0 ≤ D.MCP_I2C_BUS_NUMBER)
    (hbase : 0 ≤ D.MCP_I2C_BASE_ADDR ∧ D.MCP_I2C_BASE_ADDR ≤ 0xff)
    (hparse : option_loop D L (getopt posix argv) (Config.initial D) = .next cfg) :
    0 ≤ cfg.config_i2c_bus ∧ 0 ≤ cfg.config_i2c_base ∧ cfg.config_i2c_base ≤ 0xff := by
  have hinit : (Config.initial D).i2c_valid := ⟨hbus, hbase.1, hbase.2⟩
  have hloop : ∀ (gs : List GetoptReturn) (c c2 : Config), c.i2c_valid →
      option_loop D L gs c = .next c2 → c2.i2c_valid := by
    intro gs
    induction gs with
    | nil =>
      intro c c2 hv h
      simp only [option_loop, Step.next.injEq] at h
      exact h ▸ hv
    | cons g gs ih =>
      intro c c2 hv h
      simp only [option_loop] at h
      cases hs : switch_opt D L g c with
      | next c3 => rw [hs] at h; exact ih c3 c2 (switch_opt_i2c_valid hL hv hs) h
      | stop r => rw [hs] at h; cases h
  exact hloop _ _ _ hinit hparse

theorem accepted_i2c_configuration_in_range_witness :
    (0 : Int) ≤ 3 ∧ (0 : Int) ≤ 0x4f ∧ (0x4f : Int) ≤ 0xff :=
  accepted_i2c_configuration_in_range usageDefaults Layout.reverse_order false
    ["joyemu", "-i", "3", "-m", "2", "-a", "0x4f", "-j", "1"]
    { config_i2c_bus := 3, config_i2c_base := 0x4f, config_log_verbosity := 0,
      config_joystick_port := 1, config_mouse_port := 2 }
    (fun _ _ => ⟨rfl, rfl, rfl, rfl⟩) (by decide) (by decide) (by decide)

/-- Whenever `mouse_set_port` is called, its argument is the mouse port the
device scan received, and the scan comes first. -/
theorem mouse_set_port_matches_scan (D : Defaults) (L : Layout) (posix : Bool) (W : World)
    (argv : List String) (fuel : Nat) (p : Nat)
    (h : Event.mouse_set_port p ∈ (main D L posix W argv fuel).trace) :
    ∃ v j pre post, (main D L posix W argv fuel).trace =
      Event.debug_set_verbosity v :: Event.input_scan_devices p j ::
        (pre ++ Event.mouse_set_port p :: post) := by
  have hG : (0 : Int) ≠ GLOB_NOMATCH := by decide
  cases hp : option_loop D L (getopt posix argv) (Config.initial D) with
  | stop r =>
    rw [main_of_stop W fuel hp] at h
    rcases option_loop_stop_shape _ _ hp with h2 | ⟨m, h2⟩ <;>
      · rw [h2] at h
        simp [fatal] at h
  | next cfg =>
    rw [main_of_next W fuel hp] at h ⊢
    have hport : p = cfg.config_mouse_port ∧
        W.input_scan_devices cfg.config_mouse_port cfg.config_joystick_port = 0 ∧
        (!W.input_mouse_connected && !W.input_joysticks_connected) = false := by
      revert h
      by_cases hg : W.input_scan_devices cfg.config_mouse_port cfg.config_joystick_port
          = GLOB_NOMATCH
      · simp [startup, hg, Run.after, fatal]
      · by_cases h0 : W.input_scan_devices cfg.config_mouse_port cfg.config_joystick_port
            = 0
        · by_cases hio : W.pthread_create .port_io_thread = 0 <;>
          by_cases hpoll : W.pthread_create .input_poll_thread = 0 <;>
          cases hm : W.input_mouse_connected <;>
          cases hj : W.input_joysticks_connected <;>
          simp [startup, h0, hG, hm, hj, hio, hpoll, Run.after, fatal, device_queries,
            idle_loop_one]
        · simp [startup, hg, h0, Run.after, fatal]
    obtain ⟨hpe, h0, hc⟩ := hport
    subst hpe
    refine ⟨cfg.config_log_verbosity, cfg.config_joystick_port,
      device_queries W ++ [Event.mcp_initialize D.MCP_I2C_BUS_NUMBER D.MCP_I2C_BASE_ADDR],
      ?_⟩
    by_cases hio : W.pthread_create .port_io_thread = 0 <;>
    by_cases hpoll : W.pthread_create .input_poll_thread = 0 <;>
    simp [startup, h0, hG, hc, hio, hpoll, Run.after, fatal, idle_loop_one]

theorem mouse_set_port_matches_scan_witness :
    ∃ v j pre post,
      (main usageDefaults Layout.reverse_order false sampleWorld
          ["joyemu", "-m", "2"] 0).trace =
        Event.debug_set_verbosity v :: Event.input_scan_devices 2 j ::
          (pre ++ Event.mouse_set_port 2 :: post) :=
  mouse_set_port_matches_scan usageDefaults Layout.reverse_order false sampleWorld
    ["joyemu", "-m", "2"] 0 2 (by decide)

end Joyemu
